import Mathlib

/-!
Verification of the `RepoManager` automation helper
(`MLOps_Utils/helper_functions.py`).

The Python class shells out to git / DVC / mlflow.  We embed it shallowly:

* `RepoManager` mirrors the object state (`user_name`, `email`, `token`,
  `is_git_config`).
* `Sys` mirrors the ambient process state the code reads and writes: the
  current working directory (`os.chdir` / relative `os.path.exists`), the
  set of existing filesystem paths, the process environment
  (`os.environ`), and the mlflow tracking URI.
* External shell commands are an oracle `Exec`: given the command string
  and the current `Sys` it returns the filesystem after the command ran
  together with the exit code, captured stdout and stderr
  (`subprocess.Popen` + `communicate`).  A subprocess cannot change the
  parent process's working directory or environment, so the oracle only
  touches the filesystem component.
* Every method additionally returns the list of observable `Event`s it
  produced, in order: issued shell commands, log records, prints,
  `os.chdir`, environment writes and the tracking-URI registration.

The Python methods `initialize_dvc`, `initialize_repo_with_dvc` and
`initialize_tracking` are named `init_dvc`, `init_repo_with_dvc` and
`init_tracking` here; everything else keeps the source's names.
-/

/-- Result of one external process run: exit status plus the decoded
standard output and standard error texts. -/
structure CmdResult where
  returncode : Int
  output : String
  error : String
deriving DecidableEq

/-- Severity of a log record (`logging.info` / `logging.error`). -/
inductive LogLevel where
  | info : LogLevel
  | error : LogLevel
deriving DecidableEq

/-- Observable events produced by the orchestrator, in program order. -/
inductive Event where
  | cmd : String → Event
  | log : LogLevel → String → Event
  | chdir : String → Event
  | print : String → Event
  | setEnv : String → String → Event
  | setTrackingUri : String → Event
deriving DecidableEq

/-- Ambient process state read and written by the orchestrator. -/
structure Sys where
  cwd : String
  fs : List String
  env : List (String × String)
  tracking_uri : Option String
deriving DecidableEq

/-- The external-command oracle: the command string and the current
process state determine the filesystem after the command ran and the
command's exit status / captured output. -/
abbrev Exec := String → Sys → List String × CmdResult

/-- Resolution of a relative path against the current working directory,
as used by `os.path.exists` and `os.chdir`. -/
def resolve (cwd p : String) : String := cwd ++ "/" ++ p

/-- Model of `os.path.exists(p)` relative to the current working directory. -/
def pathExists (s : Sys) (p : String) : Bool := decide (resolve s.cwd p ∈ s.fs)

/-- Model of `os.environ[k] = v`. -/
def setEnvVar (k v : String) (env : List (String × String)) : List (String × String) :=
  (k, v) :: env.filter (fun p => p.1 != k)

/-- Object state of the Python `RepoManager`. -/
structure RepoManager where
  user_name : String
  email : String
  token : String
  is_git_config : Bool
deriving DecidableEq

/-- `RepoManager.__init__`: stores the credentials and starts with the
`is_git_config` flag unset. -/
def RepoManager.init (user_name email token : String) : RepoManager :=
  { user_name := user_name, email := email, token := token, is_git_config := false }

/-- The identity-configuration command for the contact email
(first command of `set_git_config`). -/
def cfgEmail (m : RepoManager) : String :=
  "git config --global user.email " ++ m.email

/-- The identity-configuration command for the identity name
(second command of `set_git_config`). -/
def cfgName (m : RepoManager) : String :=
  "git config --global user.name " ++ m.user_name

/-- The authenticated clone command built by `clone_repo`. -/
def clone_cmd (m : RepoManager) (repo : String) : String :=
  "git clone https://" ++ m.user_name ++ ":" ++ m.token ++ "@dagshub.com/" ++
    m.user_name ++ "/" ++ repo ++ ".git"

/-- The authenticated push command built by `commit_and_push_changes`. -/
def push_cmd (m : RepoManager) (repo : String) : String :=
  "git push https://" ++ m.user_name ++ ":" ++ m.token ++ "@dagshub.com/" ++
    m.user_name ++ "/" ++ repo ++ ".git"

/-- The commit command built by `commit_and_push_changes`. -/
def commit_cmd (message : String) : String :=
  "git commit -m \"" ++ message ++ "\""

/-- `RepoManager.run_command`: run the command, return the decoded stdout
on exit status zero; on a non-zero exit status log one error record
containing the command and the decoded stderr and return the `None`
sentinel. -/
def run_command (exec : Exec) (command : String) (s : Sys) :
    Option String × Sys × List Event :=
  let fs2 := (exec command s).1
  let res := (exec command s).2
  if res.returncode ≠ 0 then
    (none, { s with fs := fs2 },
      [Event.cmd command,
       Event.log LogLevel.error
         ("Error executing command: " ++ command ++ "\nError: " ++ res.error)])
  else
    (some res.output, { s with fs := fs2 }, [Event.cmd command])

/-- `RepoManager.set_git_config`: issue the two global identity commands,
then set `is_git_config` unconditionally. -/
def set_git_config (exec : Exec) (m : RepoManager) (s : Sys) :
    RepoManager × Sys × List Event :=
  let r1 := run_command exec (cfgEmail m) s
  let r2 := run_command exec (cfgName m) r1.2.1
  ({ m with is_git_config := true }, r2.2.1,
    r1.2.2 ++ r2.2.2 ++ [Event.log LogLevel.info "Git configuration set."])

/-- `RepoManager.clone_repo`: issue the authenticated clone command; if the
expected directory does not exist afterwards, log an error and return
without changing the working directory, otherwise `os.chdir` into it. -/
def clone_repo (exec : Exec) (m : RepoManager) (repo : String) (s : Sys) :
    Sys × List Event :=
  let r := run_command exec (clone_cmd m repo) s
  if pathExists r.2.1 repo = false then
    (r.2.1, r.2.2 ++
      [Event.log LogLevel.error ("Error: Failed to clone the repository " ++ repo)])
  else
    ({ r.2.1 with cwd := resolve r.2.1.cwd repo },
      r.2.2 ++ [Event.chdir repo,
        Event.log LogLevel.info ("Repository " ++ repo ++ " cloned.")])

/-- `RepoManager.initialize_dvc`: the six storage-initialization commands,
the token serving as both access key and secret key. -/
def init_dvc (exec : Exec) (m : RepoManager) (repo : String) (s : Sys) :
    Sys × List Event :=
  let r1 := run_command exec "dvc init" s
  let r2 := run_command exec "dvc remote add origin s3://dvc" r1.2.1
  let r3 := run_command exec
    ("dvc remote modify origin endpointurl https://dagshub.com/" ++
      m.user_name ++ "/" ++ repo ++ ".s3") r2.2.1
  let r4 := run_command exec
    ("dvc remote modify --local origin access_key_id " ++ m.token) r3.2.1
  let r5 := run_command exec
    ("dvc remote modify --local origin secret_access_key " ++ m.token) r4.2.1
  let r6 := run_command exec "dvc remote default origin" r5.2.1
  (r6.2.1, r1.2.2 ++ r2.2.2 ++ r3.2.2 ++ r4.2.2 ++ r5.2.2 ++ r6.2.2 ++
    [Event.log LogLevel.info "DVC initialized and remote storage set up."])

/-- `RepoManager.commit_and_push_changes`: stage all, commit with the given
message, push to the authenticated URL — unconditionally, in order. -/
def commit_and_push_changes (exec : Exec) (m : RepoManager)
    (repo message : String) (s : Sys) : Sys × List Event :=
  let r1 := run_command exec "git add ." s
  let r2 := run_command exec (commit_cmd message) r1.2.1
  let r3 := run_command exec (push_cmd m repo) r2.2.1
  (r3.2.1, r1.2.2 ++ r2.2.2 ++ r3.2.2 ++
    [Event.log LogLevel.info
      ("Changes committed and pushed with message: " ++ message)])

/-- `RepoManager.add_data_to_dvc`: register the data directory and push the
tracked files to the remote. -/
def add_data_to_dvc (exec : Exec) (m : RepoManager)
    (data_path output_path : String) (s : Sys) : Sys × List Event :=
  let r1 := run_command exec ("dvc add " ++ data_path ++ " -o " ++ output_path) s
  let r2 := run_command exec "dvc push -r origin" r1.2.1
  (r2.2.1, r1.2.2 ++ r2.2.2 ++
    [Event.log LogLevel.info
      ("Data from " ++ data_path ++ " added to DVC and pushed to remote storage.")])

/-- `RepoManager.initialize_repo_with_dvc`: the four-stage orchestration
entry point, each stage gated by the flag or a filesystem-existence check. -/
def init_repo_with_dvc (exec : Exec) (m : RepoManager)
    (repo data_path output_path : String) (s : Sys) :
    RepoManager × Sys × List Event :=
  let a : RepoManager × Sys × List Event :=
    if m.is_git_config = false then
      let r := set_git_config exec m s
      (r.1, r.2.1, r.2.2 ++ [Event.print ">>> Git configuration set successfully"])
    else (m, s, [])
  let b : Sys × List Event :=
    if pathExists a.2.1 repo = false then
      let r := clone_repo exec a.1 repo a.2.1
      (r.1, r.2 ++ [Event.print (">>> Repository " ++ repo ++ " cloned successfully")])
    else
      ({ a.2.1 with cwd := resolve a.2.1.cwd repo },
        [Event.chdir repo,
         Event.print (">>> Repository " ++ repo ++ " already exists")])
  let c : Sys × List Event :=
    if pathExists b.1 ".dvc" = false then
      let r1 := init_dvc exec a.1 repo b.1
      let r2 := commit_and_push_changes exec a.1 repo "Initialize DVC" r1.1
      (r2.1, r1.2 ++
        [Event.print ">>> DVC initialized and remote storage set up successfully"] ++
        r2.2 ++
        [Event.print ">>> Changes committed and pushed to the repository with message: \"Initialize DVC\""])
    else (b.1, [Event.print ">>> DVC already initialized"])
  let d : Sys × List Event :=
    if pathExists c.1 output_path = false then
      let r1 := add_data_to_dvc exec a.1 data_path output_path c.1
      let r2 := commit_and_push_changes exec a.1 repo "Added Versioned Data" r1.1
      (r2.1, r1.2 ++
        [Event.print (">>> Data from " ++ data_path ++ " added to DVC and pushed to remote storage")] ++
        r2.2 ++
        [Event.print ">>> Changes committed and pushed to the repository with message: \"Added Versioned Data\""])
    else (c.1,
      [Event.print (">>> Data from " ++ data_path ++ " already added to Remote with DVC")])
  (a.1, d.1, a.2.2 ++ b.2 ++ c.2 ++ d.2)

/-- The tracking URI string built by `initialize_tracking`. -/
def tracking_uri_of (m : RepoManager) (repo : String) : String :=
  "https://dagshub.com/" ++ m.user_name ++ "/" ++ repo ++ ".mlflow"

/-- `RepoManager.initialize_tracking`: ensure the identity is configured,
export the tracking credentials into the environment and register the
tracking URI with the mlflow client. -/
def init_tracking (exec : Exec) (m : RepoManager) (repo : String) (s : Sys) :
    RepoManager × Sys × List Event :=
  let a : RepoManager × Sys × List Event :=
    if m.is_git_config = false then
      let r := set_git_config exec m s
      (r.1, r.2.1, r.2.2 ++ [Event.print ">>> Git configuration set successfully"])
    else (m, s, [])
  let s1 := { a.2.1 with
    env := setEnvVar "MLFLOW_TRACKING_USERNAME" a.1.user_name a.2.1.env }
  let s2 := { s1 with
    env := setEnvVar "MLFLOW_TRACKING_PASSWORD" a.1.token s1.env }
  let uri := tracking_uri_of a.1 repo
  (a.1, { s2 with tracking_uri := some uri },
    a.2.2 ++
      [Event.setEnv "MLFLOW_TRACKING_USERNAME" a.1.user_name,
       Event.setEnv "MLFLOW_TRACKING_PASSWORD" a.1.token,
       Event.setTrackingUri uri,
       Event.print (">>> MLFlow Experiment Tracking Initialized\n\tExperiment Tracking URI : " ++ uri)])

/-- A call to one of the two public orchestration entry points. -/
inductive Op where
  | initRepo : String → String → String → Op
  | initTracking : String → Op
deriving DecidableEq

/-- Dispatch one public call on the orchestrator. -/
def runOp (exec : Exec) (op : Op) (m : RepoManager) (s : Sys) :
    RepoManager × Sys × List Event :=
  match op with
  | Op.initRepo repo data_path output_path =>
      init_repo_with_dvc exec m repo data_path output_path s
  | Op.initTracking repo => init_tracking exec m repo s

/-- Run a sequence of public calls on the same orchestrator instance,
concatenating the event traces. -/
def runOps (exec : Exec) (ops : List Op) (m : RepoManager) (s : Sys) :
    RepoManager × Sys × List Event :=
  match ops with
  | [] => (m, s, [])
  | op :: rest =>
      let r1 := runOp exec op m s
      let r2 := runOps exec rest r1.1 r1.2.1
      (r2.1, r2.2.1, r1.2.2 ++ r2.2.2)

/-- The shell commands issued in an event trace, in order. -/
def cmdsOf (evs : List Event) : List String :=
  evs.filterMap (fun e => match e with | Event.cmd c => some c | _ => none)

/-- The error-log records in an event trace, in order. -/
def errorLogs (evs : List Event) : List String :=
  evs.filterMap (fun e =>
    match e with | Event.log LogLevel.error msg => some msg | _ => none)

/-- Whether a command string is one of the two identity-configuration
commands of the given orchestrator. -/
def isCfgCmd (m : RepoManager) (c : String) : Bool :=
  c == cfgEmail m || c == cfgName m

/-- How many identity-configuration commands an event trace contains. -/
def identityCount (m : RepoManager) (evs : List Event) : Nat :=
  ((cmdsOf evs).filter (isCfgCmd m)).length

/-- Oracle where every command succeeds with empty output and no
filesystem change. -/
def execOk : Exec := fun _ s => (s.fs, { returncode := 0, output := "", error := "" })

/-- Oracle where every command fails with exit status 1. -/
def execFailAll : Exec :=
  fun _ s => (s.fs, { returncode := 1, output := "", error := "boom" })

/-- Oracle where exactly the given command fails and every other command
succeeds; no filesystem change. -/
def execFailOn (bad : String) : Exec := fun c s =>
  (s.fs,
    if c = bad then { returncode := 1, output := "", error := "boom" }
    else { returncode := 0, output := "", error := "" })

/-- Oracle where every command succeeds and exactly the given command
creates the given directory under the current working directory. -/
def execClone (cloneC repo : String) : Exec := fun c s =>
  (if c = cloneC then resolve s.cwd repo :: s.fs else s.fs,
    { returncode := 0, output := "", error := "" })

/-! ### Helper lemmas about the command strings and traces -/

/-- Character at a given position of a string, if any. -/
def charOf (s : String) (n : Nat) : Option Char := (s.data.drop n).head?

/-- Two strings differing at some character position are distinct. -/
theorem ne_of_charOf {s t : String} (n : Nat) (a b : Char) (hab : a ≠ b)
    (hs : charOf s n = some a) (ht : charOf t n = some b) : s ≠ t := by
  intro he
  rw [he, ht] at hs
  exact hab (Option.some.inj hs).symm

/-- Resolving a relative path against a directory never yields the
directory itself. -/
theorem resolve_ne (a b : String) : resolve a b ≠ a := by
  intro h
  have h2 := congrArg String.length h
  have h3 : ("/" : String).length = 1 := rfl
  simp [resolve, String.length_append] at h2
  omega

theorem cfgEmail_ne_clone (p m : RepoManager) (r : String) :
    cfgEmail p ≠ clone_cmd m r :=
  ne_of_charOf 5 'o' 'l' (by decide) rfl rfl

theorem cfgName_ne_clone (p m : RepoManager) (r : String) :
    cfgName p ≠ clone_cmd m r :=
  ne_of_charOf 5 'o' 'l' (by decide) rfl rfl

theorem commit_ne_clone (msg : String) (m : RepoManager) (r : String) :
    commit_cmd msg ≠ clone_cmd m r :=
  ne_of_charOf 5 'o' 'l' (by decide) rfl rfl

theorem push_ne_clone (p m : RepoManager) (rp r : String) :
    push_cmd p rp ≠ clone_cmd m r :=
  ne_of_charOf 4 'p' 'c' (by decide) rfl rfl

theorem gitadd_ne_clone (m : RepoManager) (r : String) :
    "git add ." ≠ clone_cmd m r :=
  ne_of_charOf 4 'a' 'c' (by decide) rfl rfl

/-- A command string is not an identity-configuration command when it
differs from both configuration commands. -/
theorem isCfgCmd_eq_false (p : RepoManager) {c : String}
    (h1 : c ≠ cfgEmail p) (h2 : c ≠ cfgName p) : isCfgCmd p c = false := by
  simp [isCfgCmd]
  exact ⟨h1, h2⟩

theorem clone_notCfg (p m : RepoManager) (r : String) :
    isCfgCmd p (clone_cmd m r) = false :=
  isCfgCmd_eq_false p (cfgEmail_ne_clone p m r).symm.symm.symm
    (cfgName_ne_clone p m r).symm.symm.symm

theorem cmdsOf_append (a b : List Event) : cmdsOf (a ++ b) = cmdsOf a ++ cmdsOf b :=
  List.filterMap_append a b _

theorem errorLogs_append (a b : List Event) :
    errorLogs (a ++ b) = errorLogs a ++ errorLogs b :=
  List.filterMap_append a b _

theorem cmdsOf_nil : cmdsOf [] = [] := rfl

theorem cmdsOf_cmd (c : String) (rest : List Event) :
    cmdsOf (Event.cmd c :: rest) = c :: cmdsOf rest := rfl

theorem cmdsOf_log (lvl : LogLevel) (msg : String) (rest : List Event) :
    cmdsOf (Event.log lvl msg :: rest) = cmdsOf rest := rfl

theorem cmdsOf_chdir (d : String) (rest : List Event) :
    cmdsOf (Event.chdir d :: rest) = cmdsOf rest := rfl

theorem cmdsOf_print (msg : String) (rest : List Event) :
    cmdsOf (Event.print msg :: rest) = cmdsOf rest := rfl

theorem cmdsOf_setEnv (k v : String) (rest : List Event) :
    cmdsOf (Event.setEnv k v :: rest) = cmdsOf rest := rfl

theorem cmdsOf_setTrackingUri (u : String) (rest : List Event) :
    cmdsOf (Event.setTrackingUri u :: rest) = cmdsOf rest := rfl

theorem errorLogs_nil : errorLogs [] = [] := rfl

theorem errorLogs_cmd (c : String) (rest : List Event) :
    errorLogs (Event.cmd c :: rest) = errorLogs rest := rfl

theorem errorLogs_err (msg : String) (rest : List Event) :
    errorLogs (Event.log LogLevel.error msg :: rest) = msg :: errorLogs rest := rfl

theorem errorLogs_info (msg : String) (rest : List Event) :
    errorLogs (Event.log LogLevel.info msg :: rest) = errorLogs rest := rfl

theorem errorLogs_chdir (d : String) (rest : List Event) :
    errorLogs (Event.chdir d :: rest) = errorLogs rest := rfl

theorem errorLogs_print (msg : String) (rest : List Event) :
    errorLogs (Event.print msg :: rest) = errorLogs rest := rfl

theorem errorLogs_setEnv (k v : String) (rest : List Event) :
    errorLogs (Event.setEnv k v :: rest) = errorLogs rest := rfl

theorem errorLogs_setTrackingUri (u : String) (rest : List Event) :
    errorLogs (Event.setTrackingUri u :: rest) = errorLogs rest := rfl

/-- The system state produced by `run_command` is the oracle's filesystem
update; working directory, environment and tracking URI are untouched. -/
theorem run_command_sys (exec : Exec) (c : String) (s : Sys) :
    (run_command exec c s).2.1 = { s with fs := (exec c s).1 } := by
  unfold run_command
  dsimp only
  split <;> rfl

/-- `run_command` issues exactly its command, whatever the exit status. -/
theorem cmdsOf_run_command (exec : Exec) (c : String) (s : Sys) :
    cmdsOf (run_command exec c s).2.2 = [c] := by
  unfold run_command
  dsimp only
  split <;> simp [cmdsOf_cmd, cmdsOf_log, cmdsOf_nil]

/-- `run_command` logs exactly one error record on a non-zero exit status
and none otherwise. -/
theorem errorLogs_run_command (exec : Exec) (c : String) (s : Sys) :
    errorLogs (run_command exec c s).2.2 =
      if (exec c s).2.returncode ≠ 0 then
        ["Error executing command: " ++ c ++ "\nError: " ++ (exec c s).2.error]
      else [] := by
  unfold run_command
  dsimp only
  split <;> simp_all [errorLogs_cmd, errorLogs_err, errorLogs_nil]

theorem cmdsOf_set_git_config (exec : Exec) (m : RepoManager) (s : Sys) :
    cmdsOf (set_git_config exec m s).2.2 = [cfgEmail m, cfgName m] := by
  unfold set_git_config
  dsimp only
  simp [cmdsOf_append, cmdsOf_run_command, cmdsOf_log, cmdsOf_nil]

theorem set_git_config_mgr (exec : Exec) (m : RepoManager) (s : Sys) :
    (set_git_config exec m s).1 = { m with is_git_config := true } := rfl

theorem cmdsOf_clone_repo (exec : Exec) (m : RepoManager) (r : String) (s : Sys) :
    cmdsOf (clone_repo exec m r s).2 = [clone_cmd m r] := by
  unfold clone_repo
  dsimp only
  split <;>
    simp [cmdsOf_append, cmdsOf_run_command, cmdsOf_log, cmdsOf_chdir, cmdsOf_nil]

theorem cmdsOf_init_dvc (exec : Exec) (m : RepoManager) (r : String) (s : Sys) :
    cmdsOf (init_dvc exec m r s).2 =
      ["dvc init", "dvc remote add origin s3://dvc",
       "dvc remote modify origin endpointurl https://dagshub.com/" ++
         m.user_name ++ "/" ++ r ++ ".s3",
       "dvc remote modify --local origin access_key_id " ++ m.token,
       "dvc remote modify --local origin secret_access_key " ++ m.token,
       "dvc remote default origin"] := by
  unfold init_dvc
  dsimp only
  simp [cmdsOf_append, cmdsOf_run_command, cmdsOf_log, cmdsOf_nil]

theorem cmdsOf_commit_and_push (exec : Exec) (m : RepoManager)
    (r msg : String) (s : Sys) :
    cmdsOf (commit_and_push_changes exec m r msg s).2 =
      ["git add .", commit_cmd msg, push_cmd m r] := by
  unfold commit_and_push_changes
  dsimp only
  simp [cmdsOf_append, cmdsOf_run_command, cmdsOf_log, cmdsOf_nil]

theorem cmdsOf_add_data (exec : Exec) (m : RepoManager)
    (d o : String) (s : Sys) :
    cmdsOf (add_data_to_dvc exec m d o s).2 =
      ["dvc add " ++ d ++ " -o " ++ o, "dvc push -r origin"] := by
  unfold add_data_to_dvc
  dsimp only
  simp [cmdsOf_append, cmdsOf_run_command, cmdsOf_log, cmdsOf_nil]

theorem gitadd_ne_commit (msg : String) : "git add ." ≠ commit_cmd msg :=
  ne_of_charOf 4 'a' 'c' (by decide) rfl rfl

theorem push_ne_commit (p : RepoManager) (r msg : String) :
    push_cmd p r ≠ commit_cmd msg :=
  ne_of_charOf 4 'p' 'c' (by decide) rfl rfl

theorem gitadd_notCfg (p : RepoManager) : isCfgCmd p "git add ." = false :=
  isCfgCmd_eq_false p (ne_of_charOf 4 'a' 'c' (by decide) rfl rfl)
    (ne_of_charOf 4 'a' 'c' (by decide) rfl rfl)

theorem commit_notCfg (p : RepoManager) (msg : String) :
    isCfgCmd p (commit_cmd msg) = false :=
  isCfgCmd_eq_false p (ne_of_charOf 6 'm' 'n' (by decide) rfl rfl)
    (ne_of_charOf 6 'm' 'n' (by decide) rfl rfl)

theorem push_notCfg (p m : RepoManager) (r : String) :
    isCfgCmd p (push_cmd m r) = false :=
  isCfgCmd_eq_false p (ne_of_charOf 4 'p' 'c' (by decide) rfl rfl)
    (ne_of_charOf 4 'p' 'c' (by decide) rfl rfl)

/-- Commands whose first character is a `d` (all the DVC commands) are
never identity-configuration commands. -/
theorem dvc_notCfg (p : RepoManager) {c : String} (h : charOf c 0 = some 'd') :
    isCfgCmd p c = false :=
  isCfgCmd_eq_false p (ne_of_charOf 0 'd' 'g' (by decide) h rfl)
    (ne_of_charOf 0 'd' 'g' (by decide) h rfl)

theorem filter_cfg_clone (exec : Exec) (p m : RepoManager) (r : String) (s : Sys) :
    ((cmdsOf (clone_repo exec m r s).2).filter (isCfgCmd p)) = [] := by
  rw [cmdsOf_clone_repo]
  simp [clone_notCfg]

theorem filter_cfg_init_dvc (exec : Exec) (p m : RepoManager) (r : String) (s : Sys) :
    ((cmdsOf (init_dvc exec m r s).2).filter (isCfgCmd p)) = [] := by
  have d1 : isCfgCmd p "dvc init" = false := dvc_notCfg p rfl
  have d2 : isCfgCmd p "dvc remote add origin s3://dvc" = false := dvc_notCfg p rfl
  have d3 : isCfgCmd p ("dvc remote modify origin endpointurl https://dagshub.com/" ++
      m.user_name ++ "/" ++ r ++ ".s3") = false := dvc_notCfg p rfl
  have d4 : isCfgCmd p ("dvc remote modify --local origin access_key_id " ++ m.token)
      = false := dvc_notCfg p rfl
  have d5 : isCfgCmd p ("dvc remote modify --local origin secret_access_key " ++ m.token)
      = false := dvc_notCfg p rfl
  have d6 : isCfgCmd p "dvc remote default origin" = false := dvc_notCfg p rfl
  rw [cmdsOf_init_dvc]
  simp [d1, d2, d3, d4, d5, d6]

theorem filter_cfg_commit_push (exec : Exec) (p m : RepoManager)
    (r msg : String) (s : Sys) :
    ((cmdsOf (commit_and_push_changes exec m r msg s).2).filter (isCfgCmd p)) = [] := by
  rw [cmdsOf_commit_and_push]
  simp [gitadd_notCfg, commit_notCfg, push_notCfg]

theorem filter_cfg_add_data (exec : Exec) (p m : RepoManager)
    (d o : String) (s : Sys) :
    ((cmdsOf (add_data_to_dvc exec m d o s).2).filter (isCfgCmd p)) = [] := by
  have d1 : isCfgCmd p ("dvc add " ++ d ++ " -o " ++ o) = false := dvc_notCfg p rfl
  have d2 : isCfgCmd p "dvc push -r origin" = false := dvc_notCfg p rfl
  rw [cmdsOf_add_data]
  simp [d1, d2]

theorem filter_cfg_set (exec : Exec) (m : RepoManager) (s : Sys) :
    ((cmdsOf (set_git_config exec m s).2.2).filter (isCfgCmd m)) =
      [cfgEmail m, cfgName m] := by
  rw [cmdsOf_set_git_config]
  simp [isCfgCmd]

/-- After `initialize_repo_with_dvc` the configured-flag is set (and the
credentials are unchanged), whatever it was before. -/
theorem init_repo_mgr (exec : Exec) (m : RepoManager)
    (repo d o : String) (s : Sys) :
    (init_repo_with_dvc exec m repo d o s).1 = { m with is_git_config := true } := by
  by_cases hm : m.is_git_config = false
  · simp [init_repo_with_dvc, hm, set_git_config]
  · have hm2 : m.is_git_config = true := by simpa using hm
    cases m with
    | mk u e t f =>
      simp only [init_repo_with_dvc, hm, if_false, if_neg]
      simp_all

/-- After `initialize_tracking` the configured-flag is set (and the
credentials are unchanged), whatever it was before. -/
theorem init_tracking_mgr (exec : Exec) (m : RepoManager)
    (repo : String) (s : Sys) :
    (init_tracking exec m repo s).1 = { m with is_git_config := true } := by
  by_cases hm : m.is_git_config = false
  · simp [init_tracking, hm, set_git_config]
  · have hm2 : m.is_git_config = true := by simpa using hm
    cases m with
    | mk u e t f =>
      simp only [init_tracking, hm, if_false, if_neg]
      simp_all

theorem runOp_mgr (exec : Exec) (op : Op) (m : RepoManager) (s : Sys) :
    (runOp exec op m s).1 = { m with is_git_config := true } := by
  cases op with
  | initRepo repo d o => exact init_repo_mgr exec m repo d o s
  | initTracking repo => exact init_tracking_mgr exec m repo s

/-- When the configured-flag is already set, a full
`initialize_repo_with_dvc` run issues no identity-configuration command. -/
theorem init_repo_cfg_filter (exec : Exec) (p m : RepoManager)
    (repo d o : String) (s : Sys) (h : m.is_git_config = true) :
    ((cmdsOf (init_repo_with_dvc exec m repo d o s).2.2).filter (isCfgCmd p)) = [] := by
  unfold init_repo_with_dvc
  dsimp only
  rw [if_neg (by simp [h])]
  dsimp only
  split <;> split <;> split <;>
    simp [cmdsOf_append, List.filter_append, cmdsOf_print, cmdsOf_chdir, cmdsOf_nil,
      filter_cfg_clone, filter_cfg_init_dvc, filter_cfg_commit_push, filter_cfg_add_data]

/-- When the configured-flag is already set, `initialize_tracking` issues
no identity-configuration command. -/
theorem init_tracking_cfg_filter (exec : Exec) (p m : RepoManager)
    (repo : String) (s : Sys) (h : m.is_git_config = true) :
    ((cmdsOf (init_tracking exec m repo s).2.2).filter (isCfgCmd p)) = [] := by
  unfold init_tracking
  dsimp only
  rw [if_neg (by simp [h])]
  dsimp only
  simp [cmdsOf_setEnv, cmdsOf_setTrackingUri, cmdsOf_print, cmdsOf_nil]

theorem runOp_no_cfg (exec : Exec) (op : Op) (p m : RepoManager) (s : Sys)
    (h : m.is_git_config = true) :
    ((cmdsOf (runOp exec op m s).2.2).filter (isCfgCmd p)) = [] := by
  cases op with
  | initRepo repo d o => exact init_repo_cfg_filter exec p m repo d o s h
  | initTracking repo => exact init_tracking_cfg_filter exec p m repo s h

theorem runOps_no_cfg (exec : Exec) (ops : List Op) (p m : RepoManager) (s : Sys)
    (h : m.is_git_config = true) :
    ((cmdsOf (runOps exec ops m s).2.2).filter (isCfgCmd p)) = [] := by
  induction ops generalizing m s with
  | nil => rfl
  | cons op rest ih =>
    unfold runOps
    dsimp only
    rw [cmdsOf_append, List.filter_append, runOp_no_cfg exec op p m s h,
      ih _ _ (by rw [runOp_mgr])]
    rfl

/-- The configured-flag persists through any sequence of public calls. -/
theorem runOps_flag (exec : Exec) (ops : List Op) (m : RepoManager) (s : Sys)
    (h : m.is_git_config = true) :
    (runOps exec ops m s).1.is_git_config = true := by
  induction ops generalizing m s with
  | nil => exact h
  | cons op rest ih =>
    unfold runOps
    dsimp only
    exact ih _ _ (by rw [runOp_mgr])

/-- A public call on a not-yet-configured orchestrator issues exactly the
two identity-configuration commands. -/
theorem runOp_cfg_two (exec : Exec) (op : Op) (m : RepoManager) (s : Sys)
    (h : m.is_git_config = false) :
    ((cmdsOf (runOp exec op m s).2.2).filter (isCfgCmd m)) =
      [cfgEmail m, cfgName m] := by
  cases op with
  | initRepo repo d o =>
    unfold runOp init_repo_with_dvc
    dsimp only
    rw [if_pos h]
    dsimp only
    split <;> split <;> split <;>
      simp [cmdsOf_append, List.filter_append, cmdsOf_print, cmdsOf_chdir, cmdsOf_nil,
        filter_cfg_clone, filter_cfg_init_dvc, filter_cfg_commit_push,
        filter_cfg_add_data, filter_cfg_set]
  | initTracking repo =>
    unfold runOp init_tracking
    dsimp only
    rw [if_pos h]
    dsimp only
    simp [cmdsOf_append, List.filter_append, cmdsOf_print, cmdsOf_setEnv,
      cmdsOf_setTrackingUri, cmdsOf_nil, filter_cfg_set]

/-! ### Concrete fixtures used for witnesses and counterexamples -/

/-- An empty ambient state: root working directory, no files. -/
def sys0 : Sys := { cwd := "", fs := [], env := [], tracking_uri := none }

/-- A fresh orchestrator for the spec's scenario credentials. -/
def mAlice : RepoManager := RepoManager.init "alice" "a@x.com" "T"

/-- The scenario orchestrator with the configured-flag already set. -/
def mAliceCfg : RepoManager :=
  { user_name := "alice", email := "a@x.com", token := "T", is_git_config := true }

/-- A fully completed working tree for repo `proj` with tracked output
`data/raw`: repo directory, DVC marker and output path all present. -/
def sysProj : Sys :=
  { cwd := "", fs := ["/proj", "/proj/.dvc", "/proj/data/raw"], env := [],
    tracking_uri := none }

/-! ### The claims -/

/-- C4: `run_command` returns the decoded standard output when the command
exits with status zero; on a non-zero exit status it returns the `none`
sentinel instead of raising, and logs exactly one error record whose text
contains the original command. -/
theorem claim_C4_run_command_semantics (exec : Exec) (command : String) (s : Sys) :
    ((exec command s).2.returncode = 0 →
      run_command exec command s =
        (some (exec command s).2.output, { s with fs := (exec command s).1 },
          [Event.cmd command])) ∧
    ((exec command s).2.returncode ≠ 0 →
      (run_command exec command s).1 = none ∧
      errorLogs (run_command exec command s).2.2 =
        ["Error executing command: " ++ command ++ "\nError: " ++
          (exec command s).2.error] ∧
      ∃ pre suf,
        "Error executing command: " ++ command ++ "\nError: " ++
          (exec command s).2.error = pre ++ (command ++ suf)) := by
  constructor
  · intro h
    unfold run_command
    dsimp only
    rw [if_neg (by simp [h])]
  · intro h
    unfold run_command
    dsimp only
    rw [if_pos h]
    refine ⟨rfl, by simp [errorLogs_cmd, errorLogs_err, errorLogs_nil], ?_⟩
    exact ⟨"Error executing command: ",
      "\nError: " ++ (exec command s).2.error, by simp [String.append_assoc]⟩

/-- C4 witness: a concrete failing command returns the sentinel and logs
one error record containing the command text; a concrete succeeding
command returns its standard output. -/
theorem claim_C4_witness :
    (run_command execFailAll "ls" sys0).1 = none ∧
    errorLogs (run_command execFailAll "ls" sys0).2.2 =
      ["Error executing command: " ++ "ls" ++ "\nError: " ++ "boom"] ∧
    (∃ pre suf,
      "Error executing command: " ++ "ls" ++ "\nError: " ++ "boom" =
        pre ++ ("ls" ++ suf)) ∧
    run_command execOk "ls" sys0 =
      (some "", { sys0 with fs := sys0.fs }, [Event.cmd "ls"]) := by
  have h := claim_C4_run_command_semantics execFailAll "ls" sys0
  have h2 := claim_C4_run_command_semantics execOk "ls" sys0
  obtain ⟨ha, hb, hc⟩ := h.2 (by decide)
  exact ⟨ha, hb, hc, h2.1 (by decide)⟩

/-- C6: the tracking URI registered by `initialize_tracking` is built as
`https://dagshub.com/<identity>/<repo>.mlflow`; for identity `alice` and
repo `proj` it is exactly `https://dagshub.com/alice/proj.mlflow`. -/
theorem claim_C6_tracking_uri :
    (∀ (exec : Exec) (m : RepoManager) (repo : String) (s : Sys),
      (init_tracking exec m repo s).2.1.tracking_uri =
        some ("https://dagshub.com/" ++ m.user_name ++ "/" ++ repo ++ ".mlflow")) ∧
    (init_tracking execOk mAlice "proj" sys0).2.1.tracking_uri =
      some "https://dagshub.com/alice/proj.mlflow" ∧
    Event.setTrackingUri "https://dagshub.com/alice/proj.mlflow" ∈
      (init_tracking execOk mAlice "proj" sys0).2.2 := by
  refine ⟨?_, by decide, by decide⟩
  intro exec m repo s
  unfold init_tracking
  dsimp only
  split <;> rfl

/-- C7: `commit_and_push_changes` always issues stage-all, commit with the
given message, and push, in that order; in particular, with an oracle on
which exactly the commit command fails, the push is still issued and the
commit failure is only logged. -/
theorem claim_C7_commit_push_unconditional :
    (∀ (exec : Exec) (m : RepoManager) (repo message : String) (s : Sys),
      cmdsOf (commit_and_push_changes exec m repo message s).2 =
        ["git add .", commit_cmd message, push_cmd m repo]) ∧
    (∀ (m : RepoManager) (repo message : String) (s : Sys),
      push_cmd m repo ∈
        cmdsOf (commit_and_push_changes (execFailOn (commit_cmd message))
          m repo message s).2 ∧
      errorLogs (commit_and_push_changes (execFailOn (commit_cmd message))
          m repo message s).2 =
        ["Error executing command: " ++ commit_cmd message ++ "\nError: boom"]) := by
  constructor
  · intro exec m repo message s
    exact cmdsOf_commit_and_push exec m repo message s
  · intro m repo message s
    constructor
    · rw [cmdsOf_commit_and_push]
      simp
    · have h1 : ¬("git add ." = commit_cmd message) := gitadd_ne_commit message
      have h2 : ¬(push_cmd m repo = commit_cmd message) := push_ne_commit m repo message
      unfold commit_and_push_changes
      dsimp only
      rw [errorLogs_append, errorLogs_append, errorLogs_append,
        errorLogs_run_command, errorLogs_run_command, errorLogs_run_command]
      simp [execFailOn, h1, h2, errorLogs_info, errorLogs_nil]
      rw [String.append_assoc]
      rfl

/-- C8: `initialize_dvc` issues its six fixed storage commands, and the
stored token is embedded as both the access-key credential and the
secret-key credential. -/
theorem claim_C8_token_as_both_keys (exec : Exec) (m : RepoManager)
    (repo : String) (s : Sys) :
    cmdsOf (init_dvc exec m repo s).2 =
      ["dvc init", "dvc remote add origin s3://dvc",
       "dvc remote modify origin endpointurl https://dagshub.com/" ++
         m.user_name ++ "/" ++ repo ++ ".s3",
       "dvc remote modify --local origin access_key_id " ++ m.token,
       "dvc remote modify --local origin secret_access_key " ++ m.token,
       "dvc remote default origin"] ∧
    (cmdsOf (init_dvc exec m repo s).2).get? 3 =
      some ("dvc remote modify --local origin access_key_id " ++ m.token) ∧
    (cmdsOf (init_dvc exec m repo s).2).get? 4 =
      some ("dvc remote modify --local origin secret_access_key " ++ m.token) := by
  refine ⟨cmdsOf_init_dvc exec m repo s, ?_, ?_⟩ <;>
    rw [cmdsOf_init_dvc] <;> rfl

/-- C1: a second `initialize_repo_with_dvc` run against a fully completed
working tree (flag set, repo directory, DVC marker and output path all
present) issues zero shell commands and is a no-op apart from changing
into the repository directory. -/
theorem claim_C1_second_run_noop (exec : Exec) (m : RepoManager)
    (repo data_path output_path : String) (s : Sys)
    (hflag : m.is_git_config = true)
    (hrepo : pathExists s repo = true)
    (hdvc : pathExists { s with cwd := resolve s.cwd repo } ".dvc" = true)
    (hout : pathExists { s with cwd := resolve s.cwd repo } output_path = true) :
    init_repo_with_dvc exec m repo data_path output_path s =
      (m, { s with cwd := resolve s.cwd repo },
        [Event.chdir repo,
         Event.print (">>> Repository " ++ repo ++ " already exists"),
         Event.print ">>> DVC already initialized",
         Event.print (">>> Data from " ++ data_path ++ " already added to Remote with DVC")]) ∧
    cmdsOf (init_repo_with_dvc exec m repo data_path output_path s).2.2 = [] := by
  constructor
  · simp [init_repo_with_dvc, hflag, hrepo, hdvc, hout]
  · simp [init_repo_with_dvc, hflag, hrepo, hdvc, hout,
      cmdsOf_chdir, cmdsOf_print, cmdsOf_nil]

/-- C1 witness: the completed `proj` working tree satisfies every gate and
the second run issues zero commands. -/
theorem claim_C1_witness :
    mAliceCfg.is_git_config = true ∧
    pathExists sysProj "proj" = true ∧
    pathExists { sysProj with cwd := resolve sysProj.cwd "proj" } ".dvc" = true ∧
    pathExists { sysProj with cwd := resolve sysProj.cwd "proj" } "data/raw" = true ∧
    cmdsOf (init_repo_with_dvc execOk mAliceCfg "proj" "data/" "data/raw" sysProj).2.2 = [] :=
  ⟨rfl, by decide, by decide, by decide,
   (claim_C1_second_run_noop execOk mAliceCfg "proj" "data/" "data/raw" sysProj
      rfl (by decide) (by decide) (by decide)).2⟩

/-- C5: over any sequence of public calls on one orchestrator instance
that starts unconfigured, the two identity-configuration commands are
issued exactly once when the sequence is non-empty (by its first call) and
never again. -/
theorem claim_C5_identity_at_most_once (exec : Exec) (ops : List Op)
    (m : RepoManager) (s : Sys) (h : m.is_git_config = false) :
    identityCount m (runOps exec ops m s).2.2 =
      if ops.isEmpty then 0 else 2 := by
  cases ops with
  | nil => rfl
  | cons op rest =>
    unfold runOps identityCount
    dsimp only
    rw [cmdsOf_append, List.filter_append, runOp_cfg_two exec op m s h,
      runOps_no_cfg exec rest m _ _ (by rw [runOp_mgr])]
    simp

/-- C5 witness: two tracking-registration calls on a fresh orchestrator
issue the identity pair exactly once. -/
theorem claim_C5_witness :
    mAlice.is_git_config = false ∧
    identityCount mAlice
      (runOps execOk [Op.initTracking "proj", Op.initTracking "proj"] mAlice sys0).2.2 =
      if ([Op.initTracking "proj", Op.initTracking "proj"] : List Op).isEmpty
      then 0 else 2 :=
  ⟨rfl, claim_C5_identity_at_most_once execOk
    [Op.initTracking "proj", Op.initTracking "proj"] mAlice sys0 rfl⟩

/-- C9: the configured-flag starts false at construction and is monotone:
`set_git_config` sets it, and no public call ever resets it. -/
theorem claim_C9_flag_monotone :
    (∀ u e t, (RepoManager.init u e t).is_git_config = false) ∧
    (∀ (exec : Exec) (m : RepoManager) (s : Sys),
      (set_git_config exec m s).1.is_git_config = true) ∧
    (∀ (exec : Exec) (op : Op) (m : RepoManager) (s : Sys),
      m.is_git_config = true → (runOp exec op m s).1.is_git_config = true) ∧
    (∀ (exec : Exec) (ops : List Op) (m : RepoManager) (s : Sys),
      m.is_git_config = true → (runOps exec ops m s).1.is_git_config = true) :=
  ⟨fun _ _ _ => rfl, fun _ _ _ => rfl,
   fun exec op m s _ => by rw [runOp_mgr],
   fun exec ops m s h => runOps_flag exec ops m s h⟩

/-- C9 witness: the flag survives a public call and a call sequence on the
already-configured scenario orchestrator. -/
theorem claim_C9_witness :
    mAliceCfg.is_git_config = true ∧
    (runOp execOk (Op.initTracking "proj") mAliceCfg sys0).1.is_git_config = true ∧
    (runOps execOk [Op.initRepo "proj" "data/" "data/raw"] mAliceCfg sys0).1.is_git_config = true :=
  ⟨rfl,
   claim_C9_flag_monotone.2.2.1 execOk (Op.initTracking "proj") mAliceCfg sys0 rfl,
   claim_C9_flag_monotone.2.2.2 execOk [Op.initRepo "proj" "data/" "data/raw"] mAliceCfg sys0 rfl⟩

/-- C10: `set_git_config` sets the configured-flag unconditionally, even
when both configuration commands fail (they are then only logged), and a
later public call on a configured instance never re-attempts identity
configuration. -/
theorem claim_C10_flag_set_even_on_failure :
    (∀ (exec : Exec) (m : RepoManager) (s : Sys),
      (set_git_config exec m s).1.is_git_config = true) ∧
    (∀ (m : RepoManager) (s : Sys),
      (set_git_config execFailAll m s).1.is_git_config = true ∧
      errorLogs (set_git_config execFailAll m s).2.2 =
        ["Error executing command: " ++ cfgEmail m ++ "\nError: boom",
         "Error executing command: " ++ cfgName m ++ "\nError: boom"]) ∧
    (∀ (exec : Exec) (op : Op) (m : RepoManager) (s : Sys),
      m.is_git_config = true →
      ((cmdsOf (runOp exec op m s).2.2).filter (isCfgCmd m)) = []) := by
  refine ⟨fun _ _ _ => rfl, ?_, fun exec op m s h => runOp_no_cfg exec op m m s h⟩
  intro m s
  refine ⟨rfl, ?_⟩
  unfold set_git_config
  dsimp only
  rw [errorLogs_append, errorLogs_append, errorLogs_run_command, errorLogs_run_command]
  simp [execFailAll, errorLogs_info, errorLogs_nil]
  constructor <;> (rw [String.append_assoc]; rfl)

/-- C10 witness: a failed configuration still sets the flag, and a
configured instance issues no identity commands on a later call. -/
theorem claim_C10_witness :
    (set_git_config execFailAll mAlice sys0).1.is_git_config = true ∧
    ((cmdsOf (runOp execOk (Op.initTracking "proj") mAliceCfg sys0).2.2).filter
      (isCfgCmd mAliceCfg)) = [] :=
  ⟨(claim_C10_flag_set_even_on_failure.2.1 mAlice sys0).1,
   claim_C10_flag_set_even_on_failure.2.2 execOk (Op.initTracking "proj") mAliceCfg sys0 rfl⟩

/-- C3 counterexample: with an oracle whose clone command creates nothing,
the post-clone check fails (the failure log record is emitted) and the
working directory is indeed left unchanged, but `initialize_repo_with_dvc`
still proceeds: later stage commands that embed the repository name
(`proj`) are issued in the same run, contradicting the claim. -/
theorem claim_C3_counterexample :
    Event.log LogLevel.error "Error: Failed to clone the repository proj" ∈
      (init_repo_with_dvc execOk mAliceCfg "proj" "data" "data/raw" sys0).2.2 ∧
    (init_repo_with_dvc execOk mAliceCfg "proj" "data" "data/raw" sys0).2.1.cwd =
      sys0.cwd ∧
    "dvc remote modify origin endpointurl https://dagshub.com/alice/proj.s3" ∈
      cmdsOf (init_repo_with_dvc execOk mAliceCfg "proj" "data" "data/raw" sys0).2.2 ∧
    "git push https://alice:T@dagshub.com/alice/proj.git" ∈
      cmdsOf (init_repo_with_dvc execOk mAliceCfg "proj" "data" "data/raw" sys0).2.2 := by
  decide

/-- C3 amended: when the post-clone directory check fails, `clone_repo`
itself logs an error and returns normally (no exception, no return code)
with the working directory unchanged and no further commands of its own;
but `initialize_repo_with_dvc` then continues with the storage-init and
data-registration stages in the original working directory (gated only by
marker existence there), so stage commands embedding the repository name
are still issued in that run. -/
theorem claim_C3_amended (exec : Exec) (m : RepoManager)
    (repo data_path output_path : String) (s : Sys)
    (hflag : m.is_git_config = true)
    (hok : ∀ c s2, (exec c s2).2.returncode = 0)
    (hfs : ∀ c s2, (exec c s2).1 = s2.fs)
    (h1 : resolve s.cwd repo ∉ s.fs)
    (h2 : resolve s.cwd ".dvc" ∉ s.fs)
    (h3 : resolve s.cwd output_path ∉ s.fs) :
    clone_repo exec m repo s =
      (s, [Event.cmd (clone_cmd m repo),
           Event.log LogLevel.error
             ("Error: Failed to clone the repository " ++ repo)]) ∧
    (init_repo_with_dvc exec m repo data_path output_path s).2.1.cwd = s.cwd ∧
    ("dvc remote modify origin endpointurl https://dagshub.com/" ++
        m.user_name ++ "/" ++ repo ++ ".s3") ∈
      cmdsOf (init_repo_with_dvc exec m repo data_path output_path s).2.2 := by
  have hrc : ∀ c s2, run_command exec c s2 =
      (some (exec c s2).2.output, s2, [Event.cmd c]) := by
    intro c s2
    unfold run_command
    dsimp only
    rw [if_neg (by simp [hok]), hfs]
  have hp1 : pathExists s repo = false := by simp [pathExists, h1]
  have hp2 : pathExists s ".dvc" = false := by simp [pathExists, h2]
  have hp3 : pathExists s output_path = false := by simp [pathExists, h3]
  have hclone : clone_repo exec m repo s =
      (s, [Event.cmd (clone_cmd m repo),
           Event.log LogLevel.error
             ("Error: Failed to clone the repository " ++ repo)]) := by
    simp [clone_repo, hrc, hp1]
  refine ⟨hclone, ?_, ?_⟩
  · simp [init_repo_with_dvc, hflag, hp1, hp2, hp3, hclone, init_dvc,
      commit_and_push_changes, add_data_to_dvc, hrc]
  · simp [init_repo_with_dvc, hflag, hp1, hp2, hp3, hclone, init_dvc,
      commit_and_push_changes, add_data_to_dvc, hrc,
      cmdsOf_append, cmdsOf_cmd, cmdsOf_log, cmdsOf_chdir, cmdsOf_print, cmdsOf_nil]

/-- C3 amended witness: the concrete failed-clone run, with the amended
conclusions checked at `proj`. -/
theorem claim_C3_witness :
    clone_repo execOk mAliceCfg "proj" sys0 =
      (sys0, [Event.cmd (clone_cmd mAliceCfg "proj"),
              Event.log LogLevel.error "Error: Failed to clone the repository proj"]) ∧
    (init_repo_with_dvc execOk mAliceCfg "proj" "data" "data/raw" sys0).2.1.cwd =
      sys0.cwd :=
  ⟨((claim_C3_amended execOk mAliceCfg "proj" "data" "data/raw" sys0 rfl
      (fun _ _ => rfl) (fun _ _ => rfl) (by decide) (by decide) (by decide)).1),
   ((claim_C3_amended execOk mAliceCfg "proj" "data" "data/raw" sys0 rfl
      (fun _ _ => rfl) (fun _ _ => rfl) (by decide) (by decide) (by decide)).2.1)⟩

/-- C2 counterexample: in the spec's scenario (fresh orchestrator,
empty tree, clone creates exactly the repo directory), the first
`initialize_repo_with_dvc` run issues 17 external commands, not 16 — the
storage-initialization stage issues six commands (`dvc init` plus five
remote-configuration commands), not five. -/
theorem claim_C2_counterexample :
    ¬((cmdsOf (init_repo_with_dvc
        (execClone (clone_cmd mAlice "proj") "proj")
        mAlice "proj" "data/" "data/raw" sys0).2.2).length = 16) ∧
    (cmdsOf (init_repo_with_dvc
        (execClone (clone_cmd mAlice "proj") "proj")
        mAlice "proj" "data/" "data/raw" sys0).2.2).length = 17 := by
  decide

/-- C2 amended: a first run against an empty working tree (flag unset,
repo directory, DVC marker and output path absent; the clone command
creates exactly the repository directory and every command succeeds)
issues, in order: the 2 identity commands, 1 clone command, 6
storage-initialization commands, 3 commit/push commands for
"Initialize DVC", 2 data-registration commands and 3 commit/push commands
for "Added Versioned Data" — 17 external commands in total. -/
theorem claim_C2_amended (exec : Exec) (m : RepoManager)
    (repo data_path output_path : String) (s : Sys)
    (hflag : m.is_git_config = false)
    (hok : ∀ c s2, (exec c s2).2.returncode = 0)
    (hfs : ∀ c, c ≠ clone_cmd m repo → ∀ s2, (exec c s2).1 = s2.fs)
    (hcl : ∀ s2, (exec (clone_cmd m repo) s2).1 = resolve s2.cwd repo :: s2.fs)
    (h1 : resolve s.cwd repo ∉ s.fs)
    (h2 : resolve (resolve s.cwd repo) ".dvc" ∉ s.fs)
    (h3 : resolve (resolve s.cwd repo) output_path ∉ s.fs) :
    cmdsOf (init_repo_with_dvc exec m repo data_path output_path s).2.2 =
      [cfgEmail m, cfgName m, clone_cmd m repo,
       "dvc init", "dvc remote add origin s3://dvc",
       "dvc remote modify origin endpointurl https://dagshub.com/" ++
         m.user_name ++ "/" ++ repo ++ ".s3",
       "dvc remote modify --local origin access_key_id " ++ m.token,
       "dvc remote modify --local origin secret_access_key " ++ m.token,
       "dvc remote default origin",
       "git add .", commit_cmd "Initialize DVC", push_cmd m repo,
       "dvc add " ++ data_path ++ " -o " ++ output_path, "dvc push -r origin",
       "git add .", commit_cmd "Added Versioned Data", push_cmd m repo] ∧
    (cmdsOf (init_repo_with_dvc exec m repo data_path output_path s).2.2).length
      = 17 := by
  have hrc : ∀ c, c ≠ clone_cmd m repo → ∀ s2, run_command exec c s2 =
      (some (exec c s2).2.output, s2, [Event.cmd c]) := by
    intro c hc s2
    unfold run_command
    dsimp only
    rw [if_neg (by simp [hok]), hfs c hc]
  have hrcC : ∀ s2, run_command exec (clone_cmd m repo) s2 =
      (some (exec (clone_cmd m repo) s2).2.output,
        { s2 with fs := resolve s2.cwd repo :: s2.fs },
        [Event.cmd (clone_cmd m repo)]) := by
    intro s2
    unfold run_command
    dsimp only
    rw [if_neg (by simp [hok]), hcl s2]
  have hm1 : clone_cmd { m with is_git_config := true } repo = clone_cmd m repo := rfl
  have hm2 : push_cmd { m with is_git_config := true } repo = push_cmd m repo := rfl
  have hsetT : set_git_config exec m s =
      ({ m with is_git_config := true }, s,
        [Event.cmd (cfgEmail m), Event.cmd (cfgName m),
         Event.log LogLevel.info "Git configuration set."]) := by
    simp [set_git_config, hrc (cfgEmail m) (cfgEmail_ne_clone m m repo),
      hrc (cfgName m) (cfgName_ne_clone m m repo)]
  have hp1 : pathExists s repo = false := by simp [pathExists, h1]
  have hpc : pathExists { s with fs := resolve s.cwd repo :: s.fs } repo = true := by
    simp [pathExists]
  have hcloneT : clone_repo exec { m with is_git_config := true } repo s =
      ({ s with cwd := resolve s.cwd repo, fs := resolve s.cwd repo :: s.fs },
        [Event.cmd (clone_cmd m repo), Event.chdir repo,
         Event.log LogLevel.info ("Repository " ++ repo ++ " cloned.")]) := by
    simp [clone_repo, hm1, hrcC, hpc]
  have hp2 : pathExists
      { s with cwd := resolve s.cwd repo, fs := resolve s.cwd repo :: s.fs }
      ".dvc" = false := by
    simp [pathExists, h2, resolve_ne]
  have hp3 : pathExists
      { s with cwd := resolve s.cwd repo, fs := resolve s.cwd repo :: s.fs }
      output_path = false := by
    simp [pathExists, h3, resolve_ne]
  have d1 : ("dvc init" : String) ≠ clone_cmd m repo :=
    ne_of_charOf 0 'd' 'g' (by decide) rfl rfl
  have d2 : ("dvc remote add origin s3://dvc" : String) ≠ clone_cmd m repo :=
    ne_of_charOf 0 'd' 'g' (by decide) rfl rfl
  have d3 : ("dvc remote modify origin endpointurl https://dagshub.com/" ++
      m.user_name ++ "/" ++ repo ++ ".s3") ≠ clone_cmd m repo :=
    ne_of_charOf 0 'd' 'g' (by decide) rfl rfl
  have d4 : ("dvc remote modify --local origin access_key_id " ++ m.token)
      ≠ clone_cmd m repo := ne_of_charOf 0 'd' 'g' (by decide) rfl rfl
  have d5 : ("dvc remote modify --local origin secret_access_key " ++ m.token)
      ≠ clone_cmd m repo := ne_of_charOf 0 'd' 'g' (by decide) rfl rfl
  have d6 : ("dvc remote default origin" : String) ≠ clone_cmd m repo :=
    ne_of_charOf 0 'd' 'g' (by decide) rfl rfl
  have d7 : ("dvc add " ++ data_path ++ " -o " ++ output_path) ≠ clone_cmd m repo :=
    ne_of_charOf 0 'd' 'g' (by decide) rfl rfl
  have d8 : ("dvc push -r origin" : String) ≠ clone_cmd m repo :=
    ne_of_charOf 0 'd' 'g' (by decide) rfl rfl
  have hmain : cmdsOf (init_repo_with_dvc exec m repo data_path output_path s).2.2 =
      [cfgEmail m, cfgName m, clone_cmd m repo,
       "dvc init", "dvc remote add origin s3://dvc",
       "dvc remote modify origin endpointurl https://dagshub.com/" ++
         m.user_name ++ "/" ++ repo ++ ".s3",
       "dvc remote modify --local origin access_key_id " ++ m.token,
       "dvc remote modify --local origin secret_access_key " ++ m.token,
       "dvc remote default origin",
       "git add .", commit_cmd "Initialize DVC", push_cmd m repo,
       "dvc add " ++ data_path ++ " -o " ++ output_path, "dvc push -r origin",
       "git add .", commit_cmd "Added Versioned Data", push_cmd m repo] := by
    simp [init_repo_with_dvc, hflag, hsetT, hp1, hcloneT, hp2, hp3,
      init_dvc, commit_and_push_changes, add_data_to_dvc, hm2,
      hrc "dvc init" d1, hrc _ d2, hrc _ d3, hrc _ d4, hrc _ d5, hrc _ d6,
      hrc _ d7, hrc _ d8,
      hrc "git add ." (gitadd_ne_clone m repo),
      hrc (commit_cmd "Initialize DVC") (commit_ne_clone "Initialize DVC" m repo),
      hrc (commit_cmd "Added Versioned Data") (commit_ne_clone "Added Versioned Data" m repo),
      hrc (push_cmd m repo) (push_ne_clone m m repo repo),
      cmdsOf_append, cmdsOf_cmd, cmdsOf_log, cmdsOf_chdir, cmdsOf_print, cmdsOf_nil]
  exact ⟨hmain, by rw [hmain]; rfl⟩

/-- C2 amended witness: the spec scenario (alice / proj / data paths) run
against the clone-creates-repo oracle yields exactly 17 commands. -/
theorem claim_C2_witness :
    mAlice.is_git_config = false ∧
    (cmdsOf (init_repo_with_dvc
        (execClone (clone_cmd mAlice "proj") "proj")
        mAlice "proj" "data/" "data/raw" sys0).2.2).length = 17 :=
  ⟨rfl,
   (claim_C2_amended (execClone (clone_cmd mAlice "proj") "proj") mAlice
      "proj" "data/" "data/raw" sys0 rfl (fun _ _ => rfl)
      (fun c hc s2 => by simp [execClone, hc])
      (fun s2 => by simp [execClone])
      (by decide) (by decide) (by decide)).2⟩
